/-
Verification of the gisnav geometric pipeline core against its
natural-language specification.

The development shallowly embeds the relevant parts of
  src/gisnav/gisnav/core/transform_node.py   (TransformNode)
  src/python_px4_ros2_map_nav/kalman.py      (SimpleFilter)
into Lean.  Machine floats are idealized as real numbers (or rationals
where the code only does exact integer/rational arithmetic); the Python
float NaN special value is modelled explicitly where it matters.
-/
import Mathlib

set_option autoImplicit false

namespace GisNav

/-! ## Shared value types -/

/-- Orientation quaternion (geometry_msgs Quaternion), components idealized
as real numbers. -/
structure Quat where
  w : ℝ
  x : ℝ
  y : ℝ
  z : ℝ

/-- A Python float as it flows through the admission gate: either an
ordinary value or a NaN.  A NaN carries no meaningful numeric value, but
Python distinguishes object identity with the singleton object np.nan
(the `is` operator) from the IEEE NaN property itself, so the model keeps
both bits: `isNaN` says the float is a NaN, `isNpNanObj` says the float
is the very np.nan object (hence in reality also a NaN).  `val` is the
numeric value and is only meaningful when `isNaN = false`. -/
structure PyFloat where
  isNaN : Bool
  isNpNanObj : Bool
  val : ℝ

/-- Python comparison `a < b` for a possibly-NaN left operand: any
comparison with a NaN is False. -/
def pyLt (a : PyFloat) (b : ℝ) : Prop :=
  a.isNaN = false ∧ a.val < b

open Classical in
noncomputable instance (a : PyFloat) (b : ℝ) : Decidable (pyLt a b) :=
  inferInstanceAs (Decidable (_ ∧ _))

/-- Embeds np.degrees: radians to degrees. -/
noncomputable def degrees (x : ℝ) : ℝ := x * 180 / Real.pi

/-! ## TransformNode._determine_utm_zone

Source:
    return int((longitude + 180) / 6) + 1
Python `int()` applied to a float truncates toward zero. -/

/-- Python `int(x)` on a (rational) float value: truncation toward zero. -/
def pyInt (x : ℚ) : ℤ := if 0 ≤ x then ⌊x⌋ else -⌊-x⌋

/-- Embeds `TransformNode._determine_utm_zone`. -/
def determineUtmZone (longitude : ℚ) : ℤ :=
  pyInt ((longitude + 180) / 6) + 1

/-! ## TransformNode._off_nadir_pitch and _camera_roll_or_pitch_too_high -/

/-- Embeds `TransformNode._off_nadir_pitch`:
    pitch_angle = np.arcsin(2 * (q.w * q.y - q.x * q.z))
    off_nadir_angle = np.pi / 2 - pitch_angle
    return np.degrees(off_nadir_angle) -/
noncomputable def offNadirPitch (q : Quat) : ℝ :=
  let pitchAngle := Real.arcsin (2 * (q.w * q.y - q.x * q.z))
  let offNadirAngle := Real.pi / 2 - pitchAngle
  degrees offNadirAngle

open Classical in
/-- Embeds `TransformNode._camera_roll_or_pitch_too_high`.  The camera
geopose is `none` when the gimbal attitude is not available; in that case
the pitch is assumed too high (fail-safe). -/
noncomputable def cameraRollOrPitchTooHigh
    (cameraGeopose : Option Quat) (maxPitch : ℝ) : Bool :=
  match cameraGeopose with
  | some q => if offNadirPitch q > maxPitch then true else false
  | none => true

open Classical in
/-- Embeds the inner `_should_estimate` closure of
`TransformNode._should_estimate_geopose` (the Admission Gate).  Returns
`none` when the Python assertion `assert min_alt > 0` fails, otherwise
`some go`.  `altitudeTerrain` is the `altitude.terrain` field (altitude
above ground level), a possibly-NaN Python float. -/
noncomputable def shouldEstimate (cameraGeopose : Option Quat)
    (altitudeTerrain : PyFloat) (maxPitch : ℝ) (minAlt : ℤ) : Option Bool :=
  if cameraRollOrPitchTooHigh cameraGeopose maxPitch then some false
  else if minAlt ≤ 0 then none
  else if altitudeTerrain.isNpNanObj then some false
  else if pyLt altitudeTerrain (minAlt : ℝ) then some false
  else some true

/-- A quaternion representing exact nadir pointing: rotation such that
2 (w y - x z) = 1 and hence the arcsine argument attains 1. -/
noncomputable def nadirQ : Quat :=
  ⟨Real.sqrt 2 / 2, 0, Real.sqrt 2 / 2, 0⟩

theorem offNadirPitch_nadirQ : offNadirPitch nadirQ = 0 := by
  have h2 : Real.sqrt 2 * Real.sqrt 2 = 2 := Real.mul_self_sqrt (by norm_num)
  have h1 : 2 * (nadirQ.w * nadirQ.y - nadirQ.x * nadirQ.z) = 1 := by
    show 2 * (Real.sqrt 2 / 2 * (Real.sqrt 2 / 2) - 0 * 0) = 1
    nlinarith [h2]
  unfold offNadirPitch degrees
  rw [h1, Real.arcsin_one]
  simp

theorem tooHigh_some_nadirQ :
    cameraRollOrPitchTooHigh (some nadirQ) 30 = false := by
  show (if offNadirPitch nadirQ > 30 then true else false) = false
  rw [offNadirPitch_nadirQ]
  norm_num

/-! ## Claim theorems about the Admission Gate -/

/-- C4 counterexample: with the default thresholds (max pitch 30, minimum
altitude 80) and a nadir-pointing camera, an altitude above ground of
exactly the minimum threshold is ACCEPTED by the gate (the code only
rejects strictly below the threshold), contradicting the claim that the
gate rejects when the altitude equals the threshold exactly. -/
theorem gate_accepts_at_exact_threshold :
    shouldEstimate (some nadirQ) ⟨false, false, 80⟩ 30 80 = some true := by
  simp [shouldEstimate, tooHigh_some_nadirQ, pyLt]

/-- C4 (amended): for every minimum-altitude threshold m > 0, with the
camera pitch check passing and a non-NaN altitude value, the gate rejects
exactly when the altitude is strictly below m, and accepts when the
altitude is at least m (in particular at m plus any positive epsilon, and
also at exactly m). -/
theorem gate_altitude_threshold_strict (m : ℤ) (a : ℝ) (gp : Option Quat)
    (mp : ℝ) (hm : 0 < m) (hp : cameraRollOrPitchTooHigh gp mp = false) :
    (a < (m : ℝ) → shouldEstimate gp ⟨false, false, a⟩ mp m = some false) ∧
    ((m : ℝ) ≤ a → shouldEstimate gp ⟨false, false, a⟩ mp m = some true) := by
  constructor
  · intro h
    simp [shouldEstimate, hp, pyLt, not_le.mpr hm, h]
  · intro h
    simp [shouldEstimate, hp, pyLt, not_le.mpr hm, not_lt.mpr h]

/-- Witness for the amended C4 theorem at concrete inputs. -/
theorem gate_altitude_threshold_strict_witness :
    (0 : ℤ) < 80 ∧ cameraRollOrPitchTooHigh (some nadirQ) 30 = false ∧
    shouldEstimate (some nadirQ) ⟨false, false, 81⟩ 30 80 = some true :=
  ⟨by norm_num, tooHigh_some_nadirQ,
    (gate_altitude_threshold_strict 80 81 (some nadirQ) 30 (by norm_num)
      tooHigh_some_nadirQ).2 (by norm_num)⟩

/-- C5: the code checks NaN-ness of the altitude with the Python object
identity test `altitude.terrain is np.nan`.  A NaN float that is not the
np.nan singleton object (first conjunct: isNaN true, isNpNanObj false)
passes that check, and the subsequent comparison NaN < min_alt is False,
so the gate ACCEPTS the cycle, contradicting the claim that every NaN
altitude is rejected.  Only the np.nan object itself (second conjunct) is
rejected. -/
theorem gate_nan_identity_check :
    shouldEstimate (some nadirQ) ⟨true, false, 0⟩ 30 80 = some true ∧
    shouldEstimate (some nadirQ) ⟨true, true, 0⟩ 30 80 = some false := by
  constructor <;> simp [shouldEstimate, tooHigh_some_nadirQ, pyLt]

/-- C7: the off-nadir pitch equals 90 degrees minus the degree conversion
of arcsin (2 (w y - x z)); a nadir-pointing orientation yields exactly 0;
a missing orientation is treated as pitch too high, and the gate then
rejects regardless of the remaining inputs. -/
theorem offNadir_formula_nadir_and_failsafe :
    (∀ q : Quat, offNadirPitch q =
      90 - degrees (Real.arcsin (2 * (q.w * q.y - q.x * q.z)))) ∧
    offNadirPitch nadirQ = 0 ∧
    (∀ mp : ℝ, cameraRollOrPitchTooHigh none mp = true) ∧
    (∀ a mp ma, shouldEstimate none a mp ma = some false) := by
  refine ⟨fun q => ?_, offNadirPitch_nadirQ, fun mp => rfl,
    fun a mp ma => ?_⟩
  · unfold offNadirPitch degrees
    have hπ : Real.pi ≠ 0 := Real.pi_ne_zero
    field_simp
    ring
  · simp [shouldEstimate, cameraRollOrPitchTooHigh]

/-! ## Claim theorem about the UTM zone formula -/

/-- C6: on the domain [-180, 180) of valid longitudes the truncating
Python int() coincides with the floor, so the UTM zone is
floor ((longitude + 180) / 6) + 1; in particular longitude -180 gives
zone 1, longitude 179.9 gives zone 60 and longitude 0 gives zone 31. -/
theorem utm_zone_formula :
    (∀ lon : ℚ, -180 ≤ lon → lon < 180 →
      determineUtmZone lon = ⌊(lon + 180) / 6⌋ + 1) ∧
    determineUtmZone (-180) = 1 ∧
    determineUtmZone (1799 / 10) = 60 ∧
    determineUtmZone 0 = 31 := by
  refine ⟨fun lon h1 h2 => ?_, ?_, ?_, ?_⟩
  · unfold determineUtmZone pyInt
    rw [if_pos (div_nonneg (by linarith) (by norm_num))]
  · norm_num [determineUtmZone, pyInt]
  · norm_num [determineUtmZone, pyInt]
  · norm_num [determineUtmZone, pyInt]

/-- Witness for the C6 theorem at the concrete longitude 0. -/
theorem utm_zone_formula_witness :
    determineUtmZone 0 = ⌊((0 : ℚ) + 180) / 6⌋ + 1 :=
  utm_zone_formula.1 0 (by norm_num) (by norm_num)

/-! ## TransformNode._extract_yaw -/

/-- Python float modulo `x % y` for floats: the result takes the sign of
the divisor, x - y * floor (x / y). -/
noncomputable def pyFMod (x y : ℝ) : ℝ := x - y * ⌊x / y⌋

/-- Embeds `TransformNode._extract_yaw`:
    enu_yaw = np.arctan2(2 * (q.w * q.z + q.x * q.y), 1 - 2 * (q.y**2 + q.z**2))
    enu_yaw_deg = np.degrees(enu_yaw)
    heading = 90.0 - enu_yaw_deg
    heading = (heading + 360) % 360
np.arctan2 is idealized by the complex argument function, whose range is
(-pi, pi]. -/
noncomputable def extractYaw (q : Quat) : ℝ :=
  let enuYaw := Complex.arg ⟨1 - 2 * (q.y ^ 2 + q.z ^ 2), 2 * (q.w * q.z + q.x * q.y)⟩
  let enuYawDeg := degrees enuYaw
  let heading := 90.0 - enuYawDeg
  pyFMod (heading + 360) 360

theorem pyFMod_eq_fract (x y : ℝ) (hy : y ≠ 0) :
    pyFMod x y = y * Int.fract (x / y) := by
  unfold pyFMod Int.fract
  rw [mul_sub, mul_div_cancel₀ x hy]

theorem pyFMod_range (x y : ℝ) (hy : 0 < y) :
    0 ≤ pyFMod x y ∧ pyFMod x y < y := by
  rw [pyFMod_eq_fract x y (ne_of_gt hy)]
  constructor
  · exact mul_nonneg hy.le (Int.fract_nonneg _)
  · calc y * Int.fract (x / y) < y * 1 :=
        (mul_lt_mul_left hy).mpr (Int.fract_lt_one _)
      _ = y := mul_one y

/-- C10: for every input quaternion, the heading angle produced by the
yaw extraction is in the half-open interval [0, 360) degrees. -/
theorem extractYaw_in_range (q : Quat) :
    0 ≤ extractYaw q ∧ extractYaw q < 360 := by
  unfold extractYaw
  exact pyFMod_range _ 360 (by norm_num)

/-! ## Image Aligner: TransformNode._get_affine_matrix

The rotation angle enters only through cv2.getRotationMatrix2D, which
fills the 2x3 affine with the cosine and sine of the angle, so the
embedding is parametrized directly by the pair (c, s) standing for
(cos angle, sin angle).  Raster dimensions are integers, pixel
arithmetic is exact rational arithmetic. -/

/-- Embeds `TransformNode._get_rotation_matrix`.  The source computes
cx, cy = height // 2, width // 2 and calls
cv2.getRotationMatrix2D((cx, cy), degrees, 1.0), which returns
[[c, s, (1-c) cx - s cy], [-s, c, s cx + (1-c) cy]]. -/
def getRotationMatrix (height width : ℤ) (c s : ℚ) :
    Matrix (Fin 2) (Fin 3) ℚ :=
  let cx : ℚ := ((height.fdiv 2 : ℤ) : ℚ)
  let cy : ℚ := ((width.fdiv 2 : ℤ) : ℚ)
  Matrix.of ![![c, s, (1 - c) * cx - s * cy], ![-s, c, s * cx + (1 - c) * cy]]

/-- Embeds `TransformNode._get_translation_matrix`:
np.float32([[1, 0, dx], [0, 1, dy]]). -/
def getTranslationMatrix (dx dy : ℚ) : Matrix (Fin 2) (Fin 3) ℚ :=
  Matrix.of ![![1, 0, dx], ![0, 1, dy]]

/-- np.vstack([a, [0, 0, 1]]): pad a 2x3 affine with the homogeneous
bottom row. -/
def padAffineRow (a : Matrix (Fin 2) (Fin 3) ℚ) : Matrix (Fin 3) (Fin 3) ℚ :=
  Matrix.of ![![a 0 0, a 0 1, a 0 2], ![a 1 0, a 1 1, a 1 2], ![0, 0, 1]]

/-- The numpy slice assignments affine_3d[:2, :2] = a[:, :2] and
affine_3d[:2, 3] = a[:, 2] applied to a 4x4 matrix m. -/
def insertAffine (m : Matrix (Fin 4) (Fin 4) ℚ)
    (a : Matrix (Fin 2) (Fin 3) ℚ) : Matrix (Fin 4) (Fin 4) ℚ :=
  Matrix.of fun i j =>
    if hi : (i : ℕ) < 2 then
      if hj : (j : ℕ) < 2 then a ⟨i, hi⟩ ⟨j, by omega⟩
      else if (j : ℕ) = 3 then a ⟨i, hi⟩ 2
      else m i j
    else m i j

/-- Embeds `TransformNode._get_affine_matrix` step by step: the rotation
about the raster center, the integer crop offsets dx, dy, the composed
2x3 affine inserted into a 4x4 identity, and finally the translation
hack t[:2, 2] = -t[:2, 2][::-1] composed and inserted again (overwriting
the previous insertion) before the matrix is returned. -/
def getAffineMatrix (height width : ℤ) (c s : ℚ)
    (cropHeight cropWidth : ℤ) : Matrix (Fin 4) (Fin 4) ℚ :=
  let r := getRotationMatrix height width c s
  let dx : ℤ := (height - cropHeight).fdiv 2
  let dy : ℤ := (width - cropWidth).fdiv 2
  let t := getTranslationMatrix (dx : ℚ) (dy : ℚ)
  let affine2d := t * padAffineRow r
  let affine3d := insertAffine 1 affine2d
  let tHack := getTranslationMatrix (-(dy : ℚ)) (-(dx : ℚ))
  let affineHack := tHack * padAffineRow r
  insertAffine affine3d affineHack

/-- Modelled from the spec, step 3 of the Image Aligner: compose rotation
and crop translation into one 2x3 affine and pad it into a 4x4
homogeneous matrix (rotation block top-left, translation in the top-right
of rows 0-1, identity elsewhere).  This is the transform the spec says
must be returned to callers. -/
def specStep3Transform (height width : ℤ) (c s : ℚ)
    (cropHeight cropWidth : ℤ) : Matrix (Fin 4) (Fin 4) ℚ :=
  let r := getRotationMatrix height width c s
  let dx : ℤ := (height - cropHeight).fdiv 2
  let dy : ℤ := (width - cropWidth).fdiv 2
  insertAffine 1 (getTranslationMatrix (dx : ℚ) (dy : ℚ) * padAffineRow r)

/-- Modelled from the spec, step 4 of the Image Aligner: the warp-only
variant of the step 3 transform, with the translation negated and
axis-swapped. -/
def specWarpTransform (height width : ℤ) (c s : ℚ)
    (cropHeight cropWidth : ℤ) : Matrix (Fin 4) (Fin 4) ℚ :=
  let r := getRotationMatrix height width c s
  let dx : ℤ := (height - cropHeight).fdiv 2
  let dy : ℤ := (width - cropWidth).fdiv 2
  insertAffine 1 (getTranslationMatrix (-(dy : ℚ)) (-(dx : ℚ)) * padAffineRow r)

/-- Column selection of np.delete(affine, 2, 1): keep columns 0, 1, 3. -/
def colEmbed : Fin 3 → Fin 4 := ![0, 1, 3]

/-- np.delete(affine, 2, 1) on a 4x4 matrix. -/
def deleteCol2 (m : Matrix (Fin 4) (Fin 4) ℚ) : Matrix (Fin 4) (Fin 3) ℚ :=
  Matrix.of fun i j => m i (colEmbed j)

/-- Embeds the 2x3 warp affine of `TransformNode._rotate_and_crop_image`:
affine_2d = np.delete(affine, 2, 1); affine_2d = affine_2d[:2, :],
where affine is the matrix returned by `_get_affine_matrix`.  This is
the matrix handed to cv2.warpAffine. -/
def rotateAndCropWarpAffine (height width : ℤ) (c s : ℚ)
    (cropHeight cropWidth : ℤ) : Matrix (Fin 2) (Fin 3) ℚ :=
  Matrix.of fun i j =>
    deleteCol2 (getAffineMatrix height width c s cropHeight cropWidth)
      (Fin.castLE (by omega) i) j

theorem insertAffine_overwrite (m : Matrix (Fin 4) (Fin 4) ℚ)
    (a b : Matrix (Fin 2) (Fin 3) ℚ) :
    insertAffine (insertAffine m a) b = insertAffine m b := by
  funext i j
  fin_cases i <;> fin_cases j <;> rfl

/-- C2 counterexample: at rotation angle 0 (cosine 1, sine 0), source
raster 10 x 8 and valid crop 4 x 4, the 4x4 matrix actually returned by
the aligner carries the negated and axis-swapped warp translation
(entry (0,3) is -2, the crop offsets being dx = 3, dy = 2), while the
geometrically meaningful step 3 transform has 3 there; the returned
AlignmentTransform is NOT the step 3 transform the claim describes. -/
theorem returned_transform_ne_step3 :
    getAffineMatrix 10 8 1 0 4 4 ≠ specStep3Transform 10 8 1 0 4 4 := by
  intro hEq
  have h : getAffineMatrix 10 8 1 0 4 4 ⟨0, by omega⟩ ⟨3, by omega⟩ =
      specStep3Transform 10 8 1 0 4 4 ⟨0, by omega⟩ ⟨3, by omega⟩ := by
    rw [hEq]
  have h1 : getAffineMatrix 10 8 1 0 4 4 ⟨0, by omega⟩ ⟨3, by omega⟩ = -2 := by
    simp [getAffineMatrix, insertAffine, getTranslationMatrix,
      getRotationMatrix, padAffineRow, Matrix.mul_apply, Fin.sum_univ_three]
    norm_num [show ((3 : Fin 4) : ℕ) = 3 from rfl, Int.fdiv]
  have h2 : specStep3Transform 10 8 1 0 4 4 ⟨0, by omega⟩ ⟨3, by omega⟩ = 3 := by
    simp [specStep3Transform, insertAffine, getTranslationMatrix,
      getRotationMatrix, padAffineRow, Matrix.mul_apply, Fin.sum_univ_three]
    norm_num [show ((3 : Fin 4) : ℕ) = 3 from rfl, Int.fdiv]
  rw [h1, h2] at h
  norm_num at h

/-- C2 (amended): for every rotation (cosine, sine pair) and crop size,
the 4x4 AlignmentTransform returned to callers is the warp variant whose
translation has been negated and axis-swapped (spec step 4), and the 2x3
affine passed to the warp call is exactly the 2D restriction of that same
returned matrix; the step 3 non-hacked transform is computed but
overwritten before return. -/
theorem returned_transform_is_warp_variant (height width : ℤ) (c s : ℚ)
    (cropHeight cropWidth : ℤ) :
    getAffineMatrix height width c s cropHeight cropWidth =
      specWarpTransform height width c s cropHeight cropWidth ∧
    (∀ (i : Fin 2) (j : Fin 3),
      rotateAndCropWarpAffine height width c s cropHeight cropWidth i j =
        specWarpTransform height width c s cropHeight cropWidth
          (Fin.castLE (by omega) i) (colEmbed j)) := by
  have h1 : getAffineMatrix height width c s cropHeight cropWidth =
      specWarpTransform height width c s cropHeight cropWidth := by
    simp only [getAffineMatrix, specWarpTransform]
    exact insertAffine_overwrite _ _ _
  refine ⟨h1, fun i j => ?_⟩
  simp only [rotateAndCropWarpAffine, deleteCol2, Matrix.of_apply, h1]

/-- C8: the code performs no input-size validation.  With a 4 x 4 source
raster and a 6 x 6 crop target (both crop offsets are the negative value
(4 - 6) fdiv 2 = -1), the aligner does not reject the input: it returns
a fully formed transform, shown here explicitly, instead of the rejection
the spec requires. -/
theorem oversized_crop_not_rejected :
    ((4 - 6 : ℤ).fdiv 2 = -1) ∧
    getAffineMatrix 4 4 1 0 6 6 =
      Matrix.of ![![1, 0, 0, 1], ![0, 1, 0, 1], ![0, 0, 1, 0], ![0, 0, 0, 1]] := by
  constructor
  · decide
  · funext i j
    fin_cases i <;> fin_cases j <;>
      simp [getAffineMatrix, insertAffine, getTranslationMatrix,
        getRotationMatrix, padAffineRow, Matrix.mul_apply,
        Fin.sum_univ_three] <;>
      norm_num [show ((3 : Fin 4) : ℕ) = 3 from rfl, Int.fdiv,
        Matrix.vecHead, Matrix.vecTail, Function.comp]

/-! ## Geopose Reconstructor: matrix inversion failure handling

Embeds the pose-recovery slice of `TransformNode.pnp_image._pnp_image`
(lines around the np.linalg.inv call on the alignment transform) and
`TransformNode._post_process_pose`.  np.linalg.inv raises LinAlgError
precisely on a singular matrix, modelled as a determinant-zero test.
The source functions reference several names that are not defined in
their own scope (pose, geotransform, alt, lat, lon, and context fields
absent from the dataclass); those values are taken as explicit inputs
here, which does not affect the failure-handling control flow under
verification. -/

/-- np.linalg.inv on a 4x4 matrix: `none` models the raised LinAlgError
on a singular input. -/
noncomputable def npLinalgInv4 (a : Matrix (Fin 4) (Fin 4) ℚ) :
    Option (Matrix (Fin 4) (Fin 4) ℚ) :=
  if a.det = 0 then none else some a⁻¹

/-- np.linalg.inv on a 3x3 matrix. -/
noncomputable def npLinalgInv3 (a : Matrix (Fin 3) (Fin 3) ℚ) :
    Option (Matrix (Fin 3) (Fin 3) ℚ) :=
  if a.det = 0 then none else some a⁻¹

/-- The slice affine_transform[:3, :3]. -/
def topLeft3 (a : Matrix (Fin 4) (Fin 4) ℚ) : Matrix (Fin 3) (Fin 3) ℚ :=
  a.submatrix (Fin.castLE (by omega)) (Fin.castLE (by omega))

/-- Embeds the camera-position recovery of `_pnp_image`:
    t_world = np.matmul(r.T, -t)
    t_world_homogenous = np.vstack((t_world, [1]))
    try: t_unrotated_uncropped = np.linalg.inv(affine_transform) @ t_world_homogenous
    except np.linalg.LinAlgError: return None
On inversion failure the whole cycle output is None. -/
noncomputable def pnpPositionRecovery (r : Matrix (Fin 3) (Fin 3) ℚ)
    (t : Fin 3 → ℚ) (affineTransform : Matrix (Fin 4) (Fin 4) ℚ) :
    Option (Fin 4 → ℚ) :=
  let tWorld := r.transpose.mulVec fun i => -(t i)
  let tWorldHomogenous : Fin 4 → ℚ :=
    fun i => if h : (i : ℕ) < 3 then tWorld ⟨i, h⟩ else 1
  match npLinalgInv4 affineTransform with
  | none => none
  | some inv => some (inv.mulVec tWorldHomogenous)

/-- mavros_msgs Altitude, numeric fields only. -/
structure AltitudeMsg where
  monotonic : ℚ
  amsl : ℚ
  localValue : ℚ
  relative : ℚ
  terrain : ℚ
  bottomClearance : ℚ

/-- geographic_msgs GeoPoint. -/
structure GeoPoint where
  latitude : ℚ
  longitude : ℚ
  altitude : ℚ

/-- Embeds `TransformNode._seu_to_ned_matrix`. -/
def seuToNedMatrix : Matrix (Fin 3) (Fin 3) ℚ :=
  Matrix.of ![![-1, 0, 0], ![0, 1, 0], ![0, 0, -1]]

/-- Embeds `TransformNode._post_process_pose`.  The Altitude and GeoPoint
messages are built first (hence never None), then the rotation recovery
    r = seu_to_ned @ np.linalg.inv(affine_transform[:3, :3]) @ r.T
runs inside try/except; a LinAlgError aborts with None, otherwise the
triple (geopoint, altitude, quaternion) is returned.  The quaternion
conversion messaging.rotation_matrix_to_quaternion lives outside the
sources under verification and is taken as the parameter rotToQuat. -/
noncomputable def postProcessPose {Ω : Type}
    (rotToQuat : Matrix (Fin 3) (Fin 3) ℚ → Ω)
    (alt lat lon gteAmsl gtgAlt : ℚ) (r : Matrix (Fin 3) (Fin 3) ℚ)
    (affineTransform : Matrix (Fin 4) (Fin 4) ℚ) :
    Option (GeoPoint × AltitudeMsg × Ω) :=
  let altitude : AltitudeMsg :=
    { monotonic := 0, amsl := alt + gteAmsl, localValue := 0, relative := 0,
      terrain := alt, bottomClearance := alt }
  let geopoint : GeoPoint :=
    { latitude := lat, longitude := lon, altitude := alt + gtgAlt }
  match npLinalgInv3 (topLeft3 affineTransform) with
  | none => none
  | some inv => some (geopoint, altitude, rotToQuat (seuToNedMatrix * inv * r.transpose))

/-- C3: a singular alignment transform makes the position recovery of
the pnp image cycle return an explicit None, and a singular 3x3 rotation
block makes the pose post-processing return an explicit None; conversely
a nonsingular matrix yields a full output, and in the post-processing
case that output always carries position, altitude and orientation
together, so no partial pose is ever emitted. -/
theorem geometry_failure_no_partial_output :
    (∀ (r : Matrix (Fin 3) (Fin 3) ℚ) (t : Fin 3 → ℚ)
      (a : Matrix (Fin 4) (Fin 4) ℚ),
      a.det = 0 → pnpPositionRecovery r t a = none) ∧
    (∀ (r : Matrix (Fin 3) (Fin 3) ℚ) (t : Fin 3 → ℚ)
      (a : Matrix (Fin 4) (Fin 4) ℚ),
      a.det ≠ 0 → ∃ v, pnpPositionRecovery r t a = some v) ∧
    (∀ (Ω : Type) (rotToQuat : Matrix (Fin 3) (Fin 3) ℚ → Ω)
      (alt lat lon gteAmsl gtgAlt : ℚ) (r : Matrix (Fin 3) (Fin 3) ℚ)
      (a : Matrix (Fin 4) (Fin 4) ℚ),
      (topLeft3 a).det = 0 →
      postProcessPose rotToQuat alt lat lon gteAmsl gtgAlt r a = none) ∧
    (∀ (Ω : Type) (rotToQuat : Matrix (Fin 3) (Fin 3) ℚ → Ω)
      (alt lat lon gteAmsl gtgAlt : ℚ) (r : Matrix (Fin 3) (Fin 3) ℚ)
      (a : Matrix (Fin 4) (Fin 4) ℚ),
      (topLeft3 a).det ≠ 0 →
      ∃ gp alti q,
        postProcessPose rotToQuat alt lat lon gteAmsl gtgAlt r a =
          some (gp, alti, q)) := by
  refine ⟨fun r t a h => ?_, fun r t a h => ?_,
    fun Ω f alt lat lon g1 g2 r a h => ?_, fun Ω f alt lat lon g1 g2 r a h => ?_⟩
  · simp [pnpPositionRecovery, npLinalgInv4, h]
  · unfold pnpPositionRecovery npLinalgInv4
    rw [if_neg h]
    exact ⟨_, rfl⟩
  · simp [postProcessPose, npLinalgInv3, h]
  · unfold postProcessPose npLinalgInv3
    rw [if_neg h]
    exact ⟨_, _, _, rfl⟩

/-- Witness for the C3 theorem: the zero alignment transform (singular)
yields None from both operations, the identity transform yields full
outputs from both. -/
theorem geometry_failure_no_partial_output_witness :
    pnpPositionRecovery 1 (fun _ => 0) 0 = none ∧
    (∃ v, pnpPositionRecovery 1 (fun _ => 0) 1 = some v) ∧
    postProcessPose (fun _ => ()) 0 0 0 0 0 1 0 = none ∧
    (∃ gp alti q,
      postProcessPose (fun _ => ()) 0 0 0 0 0 1 1 = some (gp, alti, q)) := by
  refine ⟨geometry_failure_no_partial_output.1 1 (fun _ => 0) 0
      (Matrix.det_zero ⟨0⟩),
    geometry_failure_no_partial_output.2.1 1 (fun _ => 0) 1 ?_,
    geometry_failure_no_partial_output.2.2.1 Unit (fun _ => ()) 0 0 0 0 0 1 0 ?_,
    geometry_failure_no_partial_output.2.2.2 Unit (fun _ => ()) 0 0 0 0 0 1 1 ?_⟩
  · rw [Matrix.det_one]; norm_num
  · show (topLeft3 0).det = 0
    have h0 : topLeft3 (0 : Matrix (Fin 4) (Fin 4) ℚ) = 0 := rfl
    rw [h0]
    exact Matrix.det_zero ⟨0⟩
  · show (topLeft3 1).det ≠ 0
    have h1 : topLeft3 (1 : Matrix (Fin 4) (Fin 4) ℚ) = 1 :=
      Matrix.submatrix_one _ (Fin.castLE_injective _)
    rw [h1, Matrix.det_one]
    norm_num

/-! ## Position Smoother: SimpleFilter (python_px4_ros2_map_nav/kalman.py)

A measurement is one position observation (a 1 x 3 row); the buffer is
the list of rows accumulated so far, oldest first.  The pykalman library
is outside the sources under verification; its KalmanFilter object is an
abstract type and its four operations used by the source (construction,
em, batch filter, filter_update) are parameters gathered in KFOps.  The
fixed transition and observation matrices of the source are embedded
explicitly and handed to the construction call. -/

/-- One position measurement (x, y, z). -/
def Meas : Type := Fin 3 → ℝ

/-- State covariance, 6 x 6. -/
def Cov : Type := Fin 6 → Fin 6 → ℝ

/-- The constant transition matrix of SimpleFilter.__init__ (identity
plus unit velocity integration per axis). -/
noncomputable def transitionMatrix : Matrix (Fin 6) (Fin 6) ℝ :=
  Matrix.of ![![1, 1, 0, 0, 0, 0], ![0, 1, 0, 0, 0, 0], ![0, 0, 1, 1, 0, 0],
    ![0, 0, 0, 1, 0, 0], ![0, 0, 0, 0, 1, 1], ![0, 0, 0, 0, 0, 1]]

/-- The constant observation matrix of SimpleFilter.__init__ (selects the
position components). -/
noncomputable def observationMatrix : Matrix (Fin 3) (Fin 6) ℝ :=
  Matrix.of ![![1, 0, 0, 0, 0, 0], ![0, 0, 1, 0, 0, 0], ![0, 0, 0, 0, 1, 0]]

/-- SimpleFilter._init_initial_state: position components from the first
buffered measurement, velocities seeded at zero. -/
noncomputable def initialStateMeanOf (m : Meas) : Fin 6 → ℝ :=
  ![m 0, 0, m 1, 0, m 2, 0]

/-- The pykalman operations consumed by SimpleFilter.update, abstracted
over the KalmanFilter model type of the library. -/
structure KFOps (κ : Type) where
  create : Matrix (Fin 6) (Fin 6) ℝ → Matrix (Fin 3) (Fin 6) ℝ →
    Option (Fin 6 → ℝ) → κ
  em : κ → List Meas → κ
  filterLast : κ → List Meas → (Fin 6 → ℝ) × Cov
  filterUpdate : κ → (Fin 6 → ℝ) → Cov → Meas → (Fin 6 → ℝ) × Cov

/-- The mutable state of a SimpleFilter instance. -/
structure SimpleFilter (κ : Type) where
  measurements : Option (List Meas)
  initialStateMean : Option (Fin 6 → ℝ)
  kf : Option κ
  windowLength : ℕ
  previousMean : Option (Fin 6 → ℝ)
  previousCovariance : Option Cov

/-- Default minimum measurements before outputting an estimate
(SimpleFilter._MIN_MEASUREMENTS). -/
def MIN_MEASUREMENTS : ℕ := 20

/-- A freshly constructed SimpleFilter with the given window length. -/
def initFilter (κ : Type) (windowLength : ℕ) : SimpleFilter κ :=
  { measurements := none, initialStateMean := none, kf := none,
    windowLength := windowLength, previousMean := none,
    previousCovariance := none }

/-- The value returned once an estimate is available:
xyz_mean = mean[0::2] and xyz_sd = np.sqrt(np.diagonal(covariance)[0::2]). -/
noncomputable def filterOutputOf (mean : Fin 6 → ℝ) (covariance : Cov) :
    (Fin 3 → ℝ) × (Fin 3 → ℝ) :=
  (fun i => mean ⟨2 * (i : ℕ), by omega⟩,
    fun i => Real.sqrt (covariance ⟨2 * (i : ℕ), by omega⟩ ⟨2 * (i : ℕ), by omega⟩))

/-- Embeds SimpleFilter.update.  The outer Option models a raised Python
AssertionError (the source asserts a nonempty buffer before initializing
the KalmanFilter, and previous mean and covariance before an online
filter_update step); the inner Option is the return value of the method, None
while the filter is still buffering. -/
noncomputable def update {κ : Type} (ops : KFOps κ) (f : SimpleFilter κ)
    (m : Meas) : Option (SimpleFilter κ × Option ((Fin 3 → ℝ) × (Fin 3 → ℝ))) :=
  match f.measurements with
  | none =>
    some ({ f with
      measurements := some [m]
      initialStateMean := some (initialStateMeanOf m) }, none)
  | some ms =>
    if ms.length < f.windowLength then
      some ({ f with measurements := some (ms ++ [m]) }, none)
    else if ms.length = 0 then
      none
    else
      match f.kf with
      | none =>
        let kf := ops.em (ops.create transitionMatrix observationMatrix
          f.initialStateMean) ms
        let mc := ops.filterLast kf ms
        some ({ f with
          kf := some kf
          previousMean := some mc.1
          previousCovariance := some mc.2 }, some (filterOutputOf mc.1 mc.2))
      | some kf =>
        match f.previousMean, f.previousCovariance with
        | some pm, some pc =>
          let mc := ops.filterUpdate kf pm pc m
          some ({ f with
            previousMean := some mc.1
            previousCovariance := some mc.2 }, some (filterOutputOf mc.1 mc.2))
        | _, _ => none

/-- Feeds a sequence of measurements one per update call, collecting the
per-call return values; an AssertionError aborts the run. -/
noncomputable def feed {κ : Type} (ops : KFOps κ) (f : SimpleFilter κ) :
    List Meas →
    Option (SimpleFilter κ × List (Option ((Fin 3 → ℝ) × (Fin 3 → ℝ))))
  | [] => some (f, [])
  | m :: rest =>
    match update ops f m with
    | none => none
    | some (f1, out) =>
      match feed ops f1 rest with
      | none => none
      | some (f2, outs) => some (f2, out :: outs)

/-- The KalmanFilter model learned on the priming call: construction from
the fixed matrices and the stored initial state mean, then the batch em
pass over the buffered measurements. -/
noncomputable def emOf {κ : Type} (ops : KFOps κ) (f : SimpleFilter κ)
    (buf : List Meas) : κ :=
  ops.em (ops.create transitionMatrix observationMatrix f.initialStateMean) buf

theorem update_first {κ : Type} (ops : KFOps κ) (f : SimpleFilter κ)
    (m : Meas) (hms : f.measurements = none) :
    update ops f m = some ({ f with
      measurements := some [m]
      initialStateMean := some (initialStateMeanOf m) }, none) := by
  simp only [update, hms]

theorem update_buffering {κ : Type} (ops : KFOps κ) (f : SimpleFilter κ)
    (buf : List Meas) (m : Meas) (hms : f.measurements = some buf)
    (hlt : buf.length < f.windowLength) :
    update ops f m = some ({ f with measurements := some (buf ++ [m]) }, none) := by
  simp only [update, hms]
  rw [if_pos hlt]

theorem update_em {κ : Type} (ops : KFOps κ) (f : SimpleFilter κ)
    (buf : List Meas) (m : Meas) (hms : f.measurements = some buf)
    (hkf : f.kf = none) (hfull : ¬ buf.length < f.windowLength)
    (hne : buf.length ≠ 0) :
    update ops f m = some ({ f with
      kf := some (emOf ops f buf)
      previousMean := some (ops.filterLast (emOf ops f buf) buf).1
      previousCovariance := some (ops.filterLast (emOf ops f buf) buf).2 },
      some (filterOutputOf (ops.filterLast (emOf ops f buf) buf).1
        (ops.filterLast (emOf ops f buf) buf).2)) := by
  simp only [update, hms]
  rw [if_neg hfull, if_neg hne]
  simp only [hkf, emOf]

theorem feed_cons {κ : Type} (ops : KFOps κ) (f : SimpleFilter κ) (m : Meas)
    (rest : List Meas) :
    feed ops f (m :: rest) =
      match update ops f m with
      | none => none
      | some (f1, out) =>
        match feed ops f1 rest with
        | none => none
        | some (f2, outs) => some (f2, out :: outs) := rfl

/-- A filter that is still buffering and has one call left before its
buffer reaches the window length produces only buffering outputs and then
the single priming output. -/
theorem feed_primes {κ : Type} (ops : KFOps κ) :
    ∀ (rest : List Meas) (f : SimpleFilter κ) (buf : List Meas),
    f.measurements = some buf → f.kf = none →
    1 ≤ buf.length → 1 ≤ rest.length →
    buf.length + rest.length = f.windowLength + 1 →
    ∃ f' out, feed ops f rest =
      some (f', List.replicate (rest.length - 1) none ++ [some out]) := by
  intro rest
  induction rest with
  | nil =>
    intro f buf _ _ _ hrest _
    exact absurd hrest (by simp)
  | cons m rest' ih =>
    intro f buf hms hkf hbuf hrest hlen
    rcases rest' with _ | ⟨m', rest''⟩
    · have hfull : ¬ buf.length < f.windowLength := by
        simp only [List.length_cons, List.length_nil] at hlen
        omega
      have hne : buf.length ≠ 0 := by omega
      refine ⟨{ f with
          kf := some (emOf ops f buf)
          previousMean := some (ops.filterLast (emOf ops f buf) buf).1
          previousCovariance := some (ops.filterLast (emOf ops f buf) buf).2 },
        filterOutputOf (ops.filterLast (emOf ops f buf) buf).1
          (ops.filterLast (emOf ops f buf) buf).2, ?_⟩
      rw [feed_cons, update_em ops f buf m hms hkf hfull hne]
      rfl
    · have hlen' : buf.length + (rest''.length + 2) = f.windowLength + 1 := by
        simpa using hlen
      have hlt : buf.length < f.windowLength := by omega
      obtain ⟨f', out, hfeed⟩ := ih { f with measurements := some (buf ++ [m]) }
        (buf ++ [m]) rfl hkf (by simp) (by simp)
        (by simp only [List.length_append, List.length_cons,
          List.length_nil]; omega)
      refine ⟨f', out, ?_⟩
      rw [feed_cons, update_buffering ops f buf m hms hlt]
      simp only [hfeed]
      simp [List.replicate_succ]

/-- Test instantiation of the abstract pykalman operations, used for the
concrete runs below. -/
noncomputable def testOps : KFOps Unit where
  create := fun _ _ _ => ()
  em := fun _ _ => ()
  filterLast := fun _ _ => (fun _ => 0, fun _ _ => 0)
  filterUpdate := fun _ _ _ _ => (fun _ => 0, fun _ _ => 0)

/-- A concrete measurement. -/
noncomputable def m0 : Meas := fun _ => 0

/-- C1 counterexample: with window length 1 the claim says the very first
update call must already return a filtered estimate; the code instead
returns None on the first call (it only seeds the buffer) and produces
its first estimate on the second call. -/
theorem smoother_no_output_on_window_call :
    (feed testOps (initFilter Unit 1) [m0]).map (fun p => p.2) = some [none] ∧
    (feed testOps (initFilter Unit 1) [m0, m0]).map (fun p => p.2) =
      some [none, some (filterOutputOf (fun _ => 0) (fun _ _ => 0))] :=
  ⟨rfl, rfl⟩

/-- C1 (amended): for every window length w of at least 1 and every
measurement sequence, the first w update calls return no output and the
(w + 1)-th call returns the first filtered estimate. -/
theorem smoother_first_output_after_window {κ : Type} (ops : KFOps κ)
    (w : ℕ) (hw : 1 ≤ w) (ms : List Meas) (hlen : ms.length = w + 1) :
    ∃ f' out, feed ops (initFilter κ w) ms =
      some (f', List.replicate w none ++ [some out]) := by
  rcases ms with _ | ⟨m0', tail⟩
  · exact absurd hlen (by simp)
  · have htail : tail.length = w := by simpa using hlen
    obtain ⟨f', out, hfeed⟩ := feed_primes ops tail
      ⟨some [m0'], some (initialStateMeanOf m0'), none, w, none, none⟩
      [m0'] rfl rfl (by simp) (by omega) (by simp; omega)
    have h1 : update ops (initFilter κ w) m0' =
        some (⟨some [m0'], some (initialStateMeanOf m0'), none, w, none, none⟩,
          none) := rfl
    refine ⟨f', out, ?_⟩
    rw [feed_cons, h1]
    simp only [hfeed, htail]
    obtain ⟨k, rfl⟩ : ∃ k, w = k + 1 := ⟨w - 1, by omega⟩
    simp [List.replicate_succ]

/-- Witness for the amended C1 theorem with window length 1 and a
two-measurement run. -/
theorem smoother_first_output_after_window_witness :
    ∃ f' out, feed testOps (initFilter Unit 1) [m0, m0] =
      some (f', List.replicate 1 none ++ [some out]) :=
  smoother_first_output_after_window testOps 1 (by norm_num) [m0, m0] rfl

/-- C9: on the update call that first primes the filter (buffer already
at the window length, KalmanFilter not yet initialized), the call runs
the em pass and the batch filtering pass over the previously buffered
measurements only: the result is independent of the measurement m passed
to that very call (m does not occur on the right-hand side), and the
buffer is left unchanged (the structure update does not touch the
measurements field). -/
theorem priming_uses_only_buffered_measurements {κ : Type} (ops : KFOps κ)
    (f : SimpleFilter κ) (buf : List Meas) (m : Meas)
    (hms : f.measurements = some buf) (hkf : f.kf = none)
    (hfull : ¬ buf.length < f.windowLength) (hne : buf.length ≠ 0) :
    update ops f m = some ({ f with
      kf := some (emOf ops f buf)
      previousMean := some (ops.filterLast (emOf ops f buf) buf).1
      previousCovariance := some (ops.filterLast (emOf ops f buf) buf).2 },
      some (filterOutputOf (ops.filterLast (emOf ops f buf) buf).1
        (ops.filterLast (emOf ops f buf) buf).2)) :=
  update_em ops f buf m hms hkf hfull hne

/-- A filter one call away from priming, used as witness input. -/
noncomputable def bufferedF : SimpleFilter Unit :=
  { measurements := some [m0], initialStateMean := some (initialStateMeanOf m0),
    kf := none, windowLength := 1, previousMean := none,
    previousCovariance := none }

/-- Witness for the C9 theorem at a concrete one-measurement buffer. -/
theorem priming_uses_only_buffered_measurements_witness :
    update testOps bufferedF m0 = some ({ bufferedF with
      kf := some (emOf testOps bufferedF [m0])
      previousMean := some (testOps.filterLast (emOf testOps bufferedF [m0]) [m0]).1
      previousCovariance := some (testOps.filterLast (emOf testOps bufferedF [m0]) [m0]).2 },
      some (filterOutputOf (testOps.filterLast (emOf testOps bufferedF [m0]) [m0]).1
        (testOps.filterLast (emOf testOps bufferedF [m0]) [m0]).2)) :=
  priming_uses_only_buffered_measurements testOps bufferedF [m0] m0 rfl rfl
    (by simp [bufferedF]) (by simp)

end GisNav
